import Mathlib

/-!
Shallow embedding of the `xserial` serial-port package (Go), covering the
Linux driver (`serial_linux.go`), the shared declarations (`serial.go`) and
the darwin stub (`serial_darwin.go`).

Modelling conventions:
* Go `uint32` bit fields are `Nat`; all masks used by the code are below
  `2^32`, and Go's AND-NOT `x &^ m` on `uint32` is `clearBits x m` below.
* Go `int`/`int64` (including `time.Duration`) are `Int`; where the code can
  overflow, wrapping is made explicit with `int64Wrap`.
* Each syscall site takes its outcome as an explicit oracle argument
  (`errno` as `Nat`, `0` meaning success; `unix.Read` outcomes as
  `Int × Option Nat`).  An errno is turned into a Go `error` value by
  `GoError.errno`.
* Go's `defer f(args)` evaluates `args` at the point of the `defer`
  statement; the model inlines the deferred body at each return site with
  those captured values.
-/

namespace XSerial

/-! ## Bit-level helpers (Go `uint32` operations) -/

/-- All 32 bits set: `^uint32(0)`. -/
def mask32 : Nat := 4294967295

/-- Go's `x &^ m` (AND NOT) on `uint32` operands: keep the bits of `x`
outside `m`.  Requires `m ≤ mask32`, true of every mask in the source. -/
def clearBits (x m : Nat) : Nat := x &&& (mask32 ^^^ m)

/-! ## Linux termios constants (`golang.org/x/sys/unix`, linux/amd64) -/

def PARENB : Nat := 0x100
def PARODD : Nat := 0x200
def CMSPAR : Nat := 0x40000000
def CSTOPB : Nat := 0x40
def CREAD : Nat := 0x80
def CLOCAL : Nat := 0x800
def CS8 : Nat := 0x30
def IGNPAR : Nat := 0x4
def INPCK : Nat := 0x10
def PARMRK : Nat := 0x8
def IXON : Nat := 0x400
def IXOFF : Nat := 0x1000
def CRTSCTS : Nat := 0x80000000
def VMIN : Nat := 6
def VTIME : Nat := 5

/-- The `CBAUD|CBAUDEX` mask: the bits of `Cflag` that hold the baud-rate
encoding on Linux (every entry of `baudRates` lies inside it). -/
def CBAUD : Nat := 0x100F

def B19200 : Nat := 14

/-- `EINTR` on Linux. -/
def EINTR : Nat := 4

/-! ## Shared declarations (`serial.go`) -/

/-- Flow-control selectors (`serial.go:11-18`). -/
def FlowNone : Nat := 0
def FlowHardware : Nat := 1
def FlowSoft : Nat := 2

/-- `Config` (`serial.go:21-28`).  `readTimeout` is a `time.Duration`,
i.e. a signed 64-bit count of nanoseconds. -/
structure Config where
  name : String
  baud : Int
  readTimeout : Int
  parity : String
  stopBits : Int
  flow : Nat
deriving DecidableEq, Repr

/-- Go `error` values that the package can produce (`serial.go:32-47` plus
errno-carrying errors and the `fmt.Errorf` wrappers of `serial_linux.go`). -/
inductive GoError where
  | notImplemented
  | portNotInitialized
  | notOpen
  | alreadyOpen
  | accessDenied
  | portClosed
  | readTimeout
  /-- A `syscall.Errno` (e.g. from `unix.Read`, `unix.Select`, ioctls). -/
  | errno (e : Nat)
  /-- A bare `fmt.Errorf` message with no wrapped cause. -/
  | errStr (msg : String)
  /-- `fmt.Errorf("<msg> - %v", cause)` / `fmt.Errorf("<msg>: %v", cause)`. -/
  | wrapped (msg : String) (cause : GoError)
deriving DecidableEq, Repr

/-- `unix.Termios` (linux/amd64 layout): flag words, line discipline,
19 control characters and the two speed words. -/
structure Termios where
  iflag : Nat := 0
  oflag : Nat := 0
  cflag : Nat := 0
  lflag : Nat := 0
  line : Nat := 0
  cc : List Nat := List.replicate 19 0
  ispeed : Nat := 0
  ospeed : Nat := 0
deriving DecidableEq, Repr

/-- `serialPort` (`serial_linux.go:51-60`), minus the mutex, which only
serialises access and carries no data. -/
structure PortState where
  fd : Int
  opened : Bool
  conf : Config
deriving DecidableEq, Repr

/-- The zero value `serialPort{}` allocated by `openPort`
(`serial_linux.go:64`). -/
def zeroConfig : Config :=
  { name := "", baud := 0, readTimeout := 0, parity := "", stopBits := 0, flow := 0 }

def zeroPort : PortState := { fd := 0, opened := false, conf := zeroConfig }

/-! ## Configuration translator (`serial_linux.go:17-48, 398-490`) -/

/-- The fixed baud-rate map `baudRates` (`serial_linux.go:17-48`), modelled
as an association list in source order; the Go map read `baudRates[b]`
is `(baudTable.lookup b)`. -/
def baudTable : List (Int × Nat) :=
  [(50, 1), (75, 2), (110, 3), (134, 4), (150, 5), (200, 6), (300, 7),
   (600, 8), (1200, 9), (1800, 10), (2400, 11), (4800, 12), (9600, 13),
   (19200, 14), (38400, 15), (57600, 0x1001), (115200, 0x1002),
   (230400, 0x1003), (460800, 0x1004), (500000, 0x1005), (576000, 0x1006),
   (921600, 0x1007), (1000000, 0x1008), (1152000, 0x1009),
   (1500000, 0x100A), (2000000, 0x100B), (2500000, 0x100C),
   (3000000, 0x100D), (3500000, 0x100E), (4000000, 0x100F)]

/-- `value, ok := baudRates[b]` (`serial_linux.go:410`). -/
def baudRates (b : Int) : Option Nat := baudTable.lookup b

/-- Baud resolution inside `getTermiosFor` (`serial_linux.go:406-414`):
zero requests the default `B19200`; a table hit uses the table encoding;
a miss leaves the local `baud` variable at its zero value. -/
def resolveBaud (b : Int) : Nat :=
  if b = 0 then B19200
  else
    match baudRates b with
    | some v => v
    | none => 0

/-- The parity `switch` of `getTermiosFor` (`serial_linux.go:418-440`),
acting on the `(Cflag, Iflag)` pair after the unconditional clear of
`PARENB|PARODD|CMSPAR`. -/
def parityFlags (parity : String) (cflag iflag : Nat) : Except GoError (Nat × Nat) :=
  let c := clearBits cflag (PARENB ||| PARODD ||| CMSPAR)
  if parity = "N" then .ok (c, iflag)
  else if parity = "E" then .ok (c ||| PARENB, iflag)
  else if parity = "O" then .ok (c ||| (PARENB ||| PARODD), iflag)
  else if parity = "S" then .ok (c ||| (PARENB ||| CMSPAR), iflag)
  else if parity = "M" then .ok (c ||| (PARENB ||| PARODD ||| CMSPAR), iflag)
  else if parity = "G" then
    .ok (clearBits (c ||| CMSPAR) PARODD ||| PARENB,
         clearBits (iflag ||| INPCK ||| PARMRK) IGNPAR)
  else .error (.errStr "invalid or not supported parity")

/-- The stop-bit `switch` of `getTermiosFor` (`serial_linux.go:442-449`),
acting on `Cflag` after the clear of `CSTOPB`. -/
def stopBitsFlags (sb : Int) (cflag : Nat) : Except GoError Nat :=
  let c := clearBits cflag CSTOPB
  if sb = 0 ∨ sb = 1 then .ok c
  else if sb = 2 then .ok (c ||| CSTOPB)
  else .error (.errStr "invalid or not supported stop bits")

/-- The flow-control `switch` of `getTermiosFor` (`serial_linux.go:450-461`),
acting on `(Cflag, Iflag)` after the clears of `CRTSCTS` and `IXON|IXOFF`. -/
def flowFlags (flow : Nat) (cflag iflag : Nat) : Except GoError (Nat × Nat) :=
  let c := clearBits cflag CRTSCTS
  let i := clearBits iflag (IXON ||| IXOFF)
  if flow = FlowNone then .ok (c, i)
  else if flow = FlowSoft then .ok (c, i ||| (IXON ||| IXOFF))
  else if flow = FlowHardware then .ok (c ||| CRTSCTS, i)
  else .error (.errStr "invalid or not supported flow control")

/-- `getTermiosFor` (`serial_linux.go:398-490`): translate a `Config` into
a termios structure, or fail on an invalid parity/stop-bit/flow symbol. -/
def getTermiosFor (cfg : Config) : Except GoError Termios :=
  -- base raw mode (serial_linux.go:400-404)
  let cflag0 := CREAD ||| CLOCAL ||| CS8
  let iflag0 := IGNPAR
  let cc0 := ((List.replicate 19 0).set VMIN 0).set VTIME 0
  -- baud (serial_linux.go:405-417)
  let baud := resolveBaud cfg.baud
  let cflag1 := cflag0 ||| baud
  match parityFlags cfg.parity cflag1 iflag0 with
  | .error e => .error e
  | .ok (cflag2, iflag2) =>
    match stopBitsFlags cfg.stopBits cflag2 with
    | .error e => .error e
    | .ok cflag3 =>
      match flowFlags cfg.flow cflag3 iflag2 with
      | .error e => .error e
      | .ok (cflag4, iflag4) =>
        -- VMIN reset when no read timeout is configured (serial_linux.go:484-487)
        let cc1 := if cfg.readTimeout = 0 then cc0.set VMIN 0 else cc0
        .ok { iflag := iflag4, cflag := cflag4, cc := cc1,
              ispeed := baud, ospeed := baud }

/-! ## Lifecycle manager (`serial_linux.go:63-154, 287-311`) -/

/-- `serialPort.Close` (`serial_linux.go:287-311`).
Oracle: `nxclErrno` for the `TIOCNXCL` ioctl, `closeErrno` for `unix.Close`.
Returns the new state, the returned error, and the list of descriptors the
call released via `unix.Close`.  The `defer` at lines 299-302 registers no
arguments, so it resets `fd`/`opened` on every return path after it. -/
def closeImpl (s : PortState) (nxclErrno closeErrno : Nat) :
    PortState × Option GoError × List Int :=
  if s.opened = false then (s, some .portNotInitialized, [])
  else if nxclErrno ≠ 0 then
    -- TIOCNXCL failed: the wrapped error is returned, unix.Close is never
    -- reached, but the deferred reset still runs (serial_linux.go:299-307)
    ({ s with fd := 0, opened := false },
     some (.wrapped "failed to release exclusive access" (.errno nxclErrno)), [])
  else
    ({ s with fd := 0, opened := false },
     (if closeErrno = 0 then none else some (.errno closeErrno)), [s.fd])

/-- Oracle for `serialPort.Open` and `openPort`. -/
structure OpenOracle where
  /-- Result of `exec.Command("lsof", "-t", name).Run()` (`serial_linux.go:122`):
  `none` = the command succeeded (port held elsewhere), `some msg` = it
  failed with error text `msg`. -/
  lsof : Option String
  /-- `unix.Open` (`serial_linux.go:131`): errno on failure, fd on success. -/
  osOpen : Except Nat Int
  /-- `TIOCEXCL` ioctl (`serial_linux.go:149`). -/
  exclErrno : Nat
  /-- `TCSETS` ioctl inside `SetTermios` (`serial_linux.go:375`). -/
  tcsetsErrno : Nat
  /-- `unix.SetNonblock` (`serial_linux.go:97`): errno, `0` = success. -/
  nonblockErrno : Nat
  /-- `TIOCNXCL` ioctl during a forced `Close` (already-open path). -/
  closeNxclErrno : Nat
  /-- `unix.Close` during a forced `Close` (already-open path). -/
  closeErrno : Nat
deriving Repr

/-- `serialPort.Open` (`serial_linux.go:106-154`).
The `defer` at lines 140-146 evaluates its arguments `(fd, err)` when the
`defer` statement executes; `err` is `nil` there (the `unix.Open` error was
already checked), so the deferred cleanup's `err != nil` test can never
succeed and the body never runs — modelled by returning the state
unchanged on the `TIOCEXCL` failure path. -/
def openImpl (s0 : PortState) (o : OpenOracle) :
    PortState × Option GoError × List Int :=
  -- forced close when already open (serial_linux.go:112-119)
  let forced := if s0.opened then closeImpl s0 o.closeNxclErrno o.closeErrno
                else (s0, none, [])
  let s := forced.1
  let closed := forced.2.2
  match o.lsof with
  | none => (s, some .alreadyOpen, closed)
  | some msg =>
    if msg ≠ "exit status 1" then (s, some .accessDenied, closed)
    else
      match o.osOpen with
      | .error e => (s, some (.errno e), closed)
      | .ok fd =>
        let s1 := { s with fd := fd, opened := true }
        -- defer (serial_linux.go:140-146) captures (fd, err) with err = nil:
        -- the cleanup body is unreachable
        if o.exclErrno ≠ 0 then
          (s1, some (.wrapped "failed to get exclusive access" (.errno o.exclErrno)), closed)
        else (s1, none, closed)

/-- `openPort` (`serial_linux.go:63-104`).
Returns the returned error (`none` = the port is returned to the caller),
the final field values of the allocated `serialPort`, and the descriptors
released during the call.  As in `Open`, the `defer` at lines 79-85
captures `(s.fd, err)` with `err = nil` (the `s.Open` error was already
checked at lines 74-76), so its cleanup body can never run: the
`SetTermios` and `SetNonblock` failure paths return with the descriptor
still open and `opened` still `true`. -/
def openPortImpl (cfg : Config) (o : OpenOracle) :
    Option GoError × PortState × List Int :=
  let s0 := zeroPort
  match getTermiosFor cfg with
  | .error e => (some e, s0, [])
  | .ok _ =>
    let r := openImpl s0 o
    let s1 := r.1
    let closed := r.2.2
    match r.2.1 with
    | some e => (some e, s1, closed)
    | none =>
      -- defer (serial_linux.go:79-85): dead code, see the doc comment
      -- s.SetTermios(t) (serial_linux.go:88, 366-379)
      if s1.opened = false then (some .notOpen, s1, closed)
      else if o.tcsetsErrno ≠ 0 then (some (.errno o.tcsetsErrno), s1, closed)
      else
        -- s.conf = *cfg (serial_linux.go:94)
        let s2 := { s1 with conf := cfg }
        -- unix.SetNonblock(s.fd, false) (serial_linux.go:97)
        if o.nonblockErrno ≠ 0 then (some (.errno o.nonblockErrno), s2, closed)
        else (none, s2, closed)

/-! ## I/O engine (`serial_linux.go:156-285, 313-364`) -/

/- Timeval construction in `Read` (`serial_linux.go:185-192`) together
with `unix.NsecToTimeval` (`golang.org/x/sys/unix/timestruct.go`). -/

/-- Wrap an integer into the signed 64-bit range, as every Go `int64`
arithmetic operation does. -/
def int64Wrap (x : Int) : Int :=
  (x + 9223372036854775808) % 18446744073709551616 - 9223372036854775808

/-- `unix.NsecToTimeval`: round up to the next microsecond and split into
`(Sec, Usec)`.  Go's `/` and `%` truncate toward zero (`Int.tdiv`/`Int.tmod`). -/
def nsecToTimeval (nsec : Int) : Int × Int :=
  let n := int64Wrap (nsec + 999)
  let usec := Int.tdiv (Int.tmod n 1000000000) 1000
  let sec := Int.tdiv n 1000000000
  if usec < 0 then (sec - 1, usec + 1000000) else (sec, usec)

/-- The Timeval that `Read` hands to `unix.Select` for a configured
read timeout `rt` (`serial_linux.go:189-190`):
`tempTime := s.conf.ReadTimeout * time.Millisecond` (int64 multiply,
wrapping) followed by `unix.NsecToTimeval(tempTime.Nanoseconds())`. -/
def readTimeval (rt : Int) : Int × Int :=
  nsecToTimeval (int64Wrap (rt * 1000000))

/-- Nanoseconds denoted by a `(Sec, Usec)` Timeval. -/
def timevalNsec (tv : Int × Int) : Int := tv.1 * 1000000000 + tv.2 * 1000

/-- The `unix.Select` retry loop (`serial_linux.go:203-212`): walk the
outcome sequence (`none` = select succeeded, `some e` = errno `e`),
retrying on `EINTR`; `none` overall means every outcome was `EINTR` and the
loop never exits. -/
def selectLoop : List (Option Nat) → Option (Option Nat)
  | [] => none
  | none :: _ => some none
  | some e :: rest => if e = EINTR then selectLoop rest else some (some e)

/-- The no-timeout read loop (`serial_linux.go:221-242`): retry
`unix.Read` on `EINTR`, normalise a negative length to zero, return the
first non-`EINTR` outcome.  `none` means every outcome was `EINTR`. -/
def readLoop : List (Int × Option Nat) → Option (Int × Option GoError)
  | [] => none
  | (n, e) :: rest =>
    if e = some EINTR then readLoop rest
    else some ((if n < 0 then 0 else n), e.map GoError.errno)

/-- Oracle for `serialPort.Read`. -/
structure ReadOracle where
  /-- Successive `unixSelect` outcomes (`serial_linux.go:205`). -/
  selects : List (Option Nat)
  /-- `fdisset(fd, &rfds)` after a successful select (`serial_linux.go:213`). -/
  readable : Bool
  /-- The single `unix.Read` of the timeout branch (`serial_linux.go:218`). -/
  readOnce : Int × Option Nat
  /-- Successive `unix.Read` outcomes of the no-timeout loop
  (`serial_linux.go:223`). -/
  reads : List (Int × Option Nat)
deriving Repr

/-- `serialPort.Read` (`serial_linux.go:181-267`).  `none` models the
non-terminating all-`EINTR` loops; `some (n, err)` is the returned pair. -/
def readImpl (s : PortState) (o : ReadOracle) : Option (Int × Option GoError) :=
  if s.opened = false then some (0, some .notOpen)
  else if s.conf.readTimeout > 0 then
    match selectLoop o.selects with
    | none => none
    | some (some e) =>
      some (0, some (.wrapped "serial: could not select" (.errno e)))
    | some none =>
      if o.readable = false then some (0, some .readTimeout)
      else
        -- n, err = unix.Read(fd, p); return  — note: no negative-length
        -- normalisation on this branch (serial_linux.go:218-219)
        some (o.readOnce.1, o.readOnce.2.map GoError.errno)
  else readLoop o.reads

/-- `serialPort.Write` (`serial_linux.go:269-285`).  Oracle `w` is the
`unix.Write` outcome. -/
def writeImpl (s : PortState) (w : Int × Option Nat) : Int × Option GoError :=
  if s.opened = false then (0, some .notOpen)
  else ((if w.1 < 0 then 0 else w.1), w.2.map GoError.errno)

/-- `serialPort.Flush` (`serial_linux.go:356-364`): no `opened` check —
the `TCFLSH` ioctl is issued on whatever `s.fd` holds and its outcome is
returned.  The first component records the descriptor the ioctl was issued
on. -/
def flushImpl (s : PortState) (errno : Nat) : Int × Option GoError :=
  (s.fd, if errno = 0 then none else some (.errno errno))

/-- `serialPort.GetTermios` (`serial_linux.go:381-396`).  Oracle: errno or
the termios the `TCGETS` ioctl filled in. -/
def getTermiosImpl (s : PortState) (res : Except Nat Termios) : Except GoError Termios :=
  if s.opened = false then .error .notOpen
  else
    match res with
    | .error e => .error (.errno e)
    | .ok t => .ok t

/-- `serialPort.SetTermios` (`serial_linux.go:366-379`): ignoring the
written value, just the returned error. -/
def setTermiosImpl (s : PortState) (errno : Nat) : Option GoError :=
  if s.opened = false then some .notOpen
  else if errno ≠ 0 then some (.errno errno) else none

/-- Result of `SetParity`: final handle state, the termios handed to the
`TCSETS` ioctl (if that call was reached), and the returned error. -/
structure SetParityResult where
  state : PortState
  written : Option Termios
  err : Option GoError
deriving DecidableEq, Repr

/-- `serialPort.SetParity` (`serial_linux.go:313-354`).  Oracles: `getRes`
for `GetTermios`, `setErrno` for the `TCSETS` ioctl inside `SetTermios`.
Note the parity `switch` here (lines 322-334) has cases `N,E,O,S,M` only —
there is no `"G"` case, unlike `getTermiosFor`. -/
def setParityImpl (s : PortState) (getRes : Except Nat Termios) (setErrno : Nat)
    (parity : String) (stopbits : Int) : SetParityResult :=
  match getTermiosImpl s getRes with
  | .error e => ⟨s, none, some e⟩
  | .ok t0 =>
    let c1 := clearBits t0.cflag (PARENB ||| PARODD ||| CMSPAR)
    let afterParity : Except GoError Nat :=
      if parity = "N" then .ok c1
      else if parity = "E" then .ok (c1 ||| PARENB)
      else if parity = "O" then .ok (c1 ||| (PARENB ||| PARODD))
      else if parity = "S" then .ok (c1 ||| (PARENB ||| CMSPAR))
      else if parity = "M" then .ok (c1 ||| (PARENB ||| PARODD ||| CMSPAR))
      else .error (.errStr "invalid or not supported parity")
    match afterParity with
    | .error e => ⟨s, none, some e⟩
    | .ok c2 =>
      let afterStop : Except GoError Nat :=
        let c := clearBits c2 CSTOPB
        if stopbits = 0 ∨ stopbits = 1 then .ok c
        else if stopbits = 2 then .ok (c ||| CSTOPB)
        else .error (.errStr "invalid or not supported stop bits")
      match afterStop with
      | .error e => ⟨s, none, some e⟩
      | .ok c3 =>
        let t1 := { t0 with cflag := c3 }
        if s.opened = false then ⟨s, none, some .notOpen⟩
        else if setErrno ≠ 0 then ⟨s, some t1, some (.errno setErrno)⟩
        else
          ⟨{ s with conf := { s.conf with parity := parity, stopBits := stopbits } },
           some t1, none⟩

/-! ## The darwin stub (`serial_darwin.go`) -/

namespace Darwin

/-- `serialPort.SetParity` on darwin (`serial_darwin.go:301-303`): the body
is `return nil`. -/
def setParity (_parity : String) (_stopbits : Int) : Option GoError := none

/-- `serialPort.Flush` on darwin (`serial_darwin.go:306-313`): identical to
the Linux body — no `opened` check, ioctl on `s.fd`, outcome returned. -/
def flush (s : PortState) (errno : Nat) : Int × Option GoError :=
  (s.fd, if errno = 0 then none else some (.errno errno))

end Darwin

/-! ## Views used by the statements -/

/-- The parity-related control bits of a termios (`PARENB|PARODD|CMSPAR`). -/
def parityBits (t : Termios) : Nat := t.cflag &&& (PARENB ||| PARODD ||| CMSPAR)

/-- Spec-side view of the no-timeout read loop: the first `unix.Read`
outcome that is not an interrupted call (`EINTR`). -/
def firstReady (rs : List (Int × Option Nat)) : Option (Int × Option Nat) :=
  (rs.dropWhile (fun r => r.2 == some EINTR)).head?

/-! ## Helper lemmas -/

/-- `&&&` distributes over `|||` on the left operand. -/
theorem or_and_right (a b c : Nat) : (a ||| b) &&& c = (a &&& c) ||| (b &&& c) := by
  apply Nat.eq_of_testBit_eq
  intro i
  simp only [Nat.testBit_and, Nat.testBit_or]
  cases a.testBit i <;> cases b.testBit i <;> cases c.testBit i <;> rfl

/-- A successful association-list lookup locates a pair of the list. -/
theorem lookup_mem {α : Type} {β : Type} [BEq α] [LawfulBEq α] :
    ∀ {l : List (α × β)} {a : α} {v : β}, l.lookup a = some v → (a, v) ∈ l
  | [], _, _, h => by simp [List.lookup] at h
  | (k, w) :: rest, a, v, h => by
    rw [List.lookup] at h
    cases hk : a == k with
    | false =>
      rw [hk] at h
      exact List.mem_cons_of_mem _ (lookup_mem h)
    | true =>
      rw [hk] at h
      obtain rfl : w = v := by injection h
      obtain rfl : a = k := eq_of_beq hk
      exact List.mem_cons_self _ _

-- Ground `&&&` evaluations used to fold the bit-field chains.  The literals
-- are the termios constants, their 32-bit complements, and the partial
-- sums that appear while folding (e.g. `1073742592 = PARENB|PARODD|CMSPAR`,
-- `3221224703 = mask32 ^^^ (PARENB|PARODD|CMSPAR)`, `4111 = CBAUD`).
theorem gAnd1 : (2147483647 : Nat) &&& 1073742592 = 1073742592 := by decide
theorem gAnd2 : (4294967231 : Nat) &&& 1073742592 = 1073742592 := by decide
theorem gAnd3 : (3221224703 : Nat) &&& 1073742592 = 0 := by decide
theorem gAnd4 : (256 : Nat) &&& 1073742592 = 256 := by decide
theorem gAnd5 : (64 : Nat) &&& 1073742592 = 0 := by decide
theorem gAnd6 : (2147483648 : Nat) &&& 1073742592 = 0 := by decide
theorem gAnd7 : (2224 : Nat) &&& 1073742592 = 0 := by decide
theorem gAnd8 : (768 : Nat) &&& 1073742592 = 768 := by decide
theorem gAnd9 : (1073742080 : Nat) &&& 1073742592 = 1073742080 := by decide
theorem gAnd10 : (1073742592 : Nat) &&& 1073742592 = 1073742592 := by decide
theorem gAnd11 : (4294966783 : Nat) &&& 1073742592 = 1073742080 := by decide
theorem gAnd12 : (3221224703 : Nat) &&& 1073742080 = 0 := by decide
theorem gAnd13 : (1073741824 : Nat) &&& 1073742080 = 1073741824 := by decide
theorem gAnd14 : (28 : Nat) &&& 4294967291 = 24 := by decide
theorem gAnd15 : (24 : Nat) &&& 4294962175 = 24 := by decide
theorem gAnd16 : (24 : Nat) &&& 16 = 16 := by decide
theorem gAnd17 : (24 : Nat) &&& 8 = 8 := by decide
theorem gAnd18 : (24 : Nat) &&& 4 = 0 := by decide
theorem gAnd19 : (5144 : Nat) &&& 16 = 16 := by decide
theorem gAnd20 : (5144 : Nat) &&& 8 = 8 := by decide
theorem gAnd21 : (5144 : Nat) &&& 4 = 0 := by decide
theorem gAnd22 : (4 : Nat) &&& 4294962175 = 4 := by decide
theorem gAnd23 : (2147483647 : Nat) &&& 4111 = 4111 := by decide
theorem gAnd24 : (4294967231 : Nat) &&& 4111 = 4111 := by decide
theorem gAnd25 : (3221224703 : Nat) &&& 4111 = 4111 := by decide
theorem gAnd26 : (2224 : Nat) &&& 4111 = 0 := by decide
theorem gAnd27 : (256 : Nat) &&& 4111 = 0 := by decide
theorem gAnd28 : (768 : Nat) &&& 4111 = 0 := by decide
theorem gAnd29 : (1073742080 : Nat) &&& 4111 = 0 := by decide
theorem gAnd30 : (1073742592 : Nat) &&& 4111 = 0 := by decide
theorem gAnd31 : (4294966783 : Nat) &&& 4111 = 4111 := by decide
theorem gAnd32 : (1073741824 : Nat) &&& 4111 = 0 := by decide
theorem gAnd33 : (64 : Nat) &&& 4111 = 0 := by decide
theorem gAnd34 : (2147483648 : Nat) &&& 4111 = 0 := by decide
theorem gAnd35 : (14 : Nat) &&& 4111 = 14 := by decide
theorem gAnd36 : (1073742080 : Nat) &&& 1073742080 = 1073742080 := by decide
theorem gAnd37 : (256 : Nat) &&& 1073742080 = 256 := by decide
theorem gAnd38 : (2238 : Nat) &&& 4111 = 14 := by decide

/-- Every value of the baud table lies inside the `CBAUD` mask. -/
theorem baudRates_some_and (b : Int) (v : Nat) (h : baudRates b = some v) :
    v &&& 4111 = v := by
  have hmem := lookup_mem (l := baudTable) h
  fin_cases hmem <;> decide

/-- Every encoding `resolveBaud` can produce lies inside the `CBAUD` mask. -/
theorem resolveBaud_and_CBAUD (b : Int) : resolveBaud b &&& 4111 = resolveBaud b := by
  by_cases hb : b = 0
  · unfold resolveBaud
    rw [if_pos hb]
    decide
  · unfold resolveBaud
    rw [if_neg hb]
    rcases h : baudRates b with _ | v
    · rfl
    · exact baudRates_some_and b v h

/-- A table hit resolves to the table's encoding. -/
theorem resolveBaud_eq_of_some (b : Int) (v : Nat) (hz : ¬ b = 0)
    (hv : baudRates b = some v) : resolveBaud b = v := by
  unfold resolveBaud
  rw [if_neg hz, hv]

/-- The no-timeout read loop returns the first non-`EINTR` outcome, with a
negative length normalised to zero and the errno wrapped as a Go error. -/
theorem readLoop_eq_firstReady : ∀ rs, readLoop rs = (firstReady rs).map
      (fun r => ((if r.1 < 0 then 0 else r.1), r.2.map GoError.errno))
  | [] => rfl
  | (n, e) :: rest => by
    by_cases he : e = some EINTR
    · simp only [readLoop, firstReady, List.dropWhile_cons, he]
      simpa [firstReady] using readLoop_eq_firstReady rest
    · simp [readLoop, firstReady, List.dropWhile_cons, he]

/-! ## Claim theorems -/

/-- C1: the claim says every failure after descriptor acquisition (the
`TIOCEXCL` ioctl in `Open`, `SetTermios` or set-blocking in `openPort`)
releases the descriptor and resets the handle to `fd = 0, opened = false`
before the error propagates.  The code violates this: both "Auto Close on
Errors" `defer`s capture `err` at registration time, when it is still
`nil`, so the cleanup can never fire.  This theorem evaluates `openPort` at
three such failures (TCSETS errno 22, TIOCEXCL errno 13, SetNonblock
errno 9): each returns an error while the handle keeps `fd = 3`,
`opened = true` and no descriptor is ever closed. -/
theorem c1_partial_open_state :
    (openPortImpl
        { name := "/dev/ttyUSB0", baud := 9600, readTimeout := 0, parity := "N",
          stopBits := 1, flow := 0 }
        { lsof := some "exit status 1", osOpen := .ok 3, exclErrno := 0,
          tcsetsErrno := 22, nonblockErrno := 0, closeNxclErrno := 0, closeErrno := 0 } =
      (some (.errno 22), { fd := 3, opened := true, conf := zeroConfig }, [])) ∧
    (openPortImpl
        { name := "/dev/ttyUSB0", baud := 9600, readTimeout := 0, parity := "N",
          stopBits := 1, flow := 0 }
        { lsof := some "exit status 1", osOpen := .ok 3, exclErrno := 13,
          tcsetsErrno := 0, nonblockErrno := 0, closeNxclErrno := 0, closeErrno := 0 } =
      (some (.wrapped "failed to get exclusive access" (.errno 13)),
       { fd := 3, opened := true, conf := zeroConfig }, [])) ∧
    (openPortImpl
        { name := "/dev/ttyUSB0", baud := 9600, readTimeout := 0, parity := "N",
          stopBits := 1, flow := 0 }
        { lsof := some "exit status 1", osOpen := .ok 3, exclErrno := 0,
          tcsetsErrno := 0, nonblockErrno := 9, closeNxclErrno := 0, closeErrno := 0 } =
      (some (.errno 9),
       { fd := 3, opened := true,
         conf := { name := "/dev/ttyUSB0", baud := 9600, readTimeout := 0,
                   parity := "N", stopBits := 1, flow := 0 } }, [])) := by
  refine ⟨?_, ?_, ?_⟩ <;> decide

/-- C2 counterexample: the claim says the single read of the timeout branch
has a negative length normalised to zero; in the code that branch returns
the `unix.Read` result unchanged.  On an open handle with timeout 200,
a completing select, a readable descriptor and `unix.Read` returning
`(-1, errno 5)`, `Read` returns length `-1`, which is negative. -/
theorem c2_negative_length_counterexample :
    readImpl { fd := 3, opened := true, conf := { zeroConfig with readTimeout := 200 } }
        { selects := [none], readable := true, readOnce := (-1, some 5), reads := [] } =
      some (-1, some (.errno 5)) ∧ (-1 : Int) < 0 := by
  constructor <;> decide

/-- C2 (amended): on an open handle with a positive read timeout, when the
readiness wait completes without error: if the descriptor is not readable,
`Read` returns `(0, ErrReadTimeout)`; otherwise it performs exactly one
read call and returns its result as-is — a negative length is passed
through, not normalised to zero. -/
theorem c2_timeout_read_behavior (s : PortState) (o : ReadOracle)
    (hopen : s.opened = true) (hrt : s.conf.readTimeout > 0)
    (hsel : selectLoop o.selects = some none) :
    (o.readable = false → readImpl s o = some (0, some .readTimeout)) ∧
    (o.readable = true →
      readImpl s o = some (o.readOnce.1, o.readOnce.2.map GoError.errno)) := by
  constructor <;> intro h <;> simp [readImpl, hopen, hrt, hsel, h]

theorem c2_timeout_read_behavior_witness :
    readImpl { fd := 3, opened := true, conf := { zeroConfig with readTimeout := 200 } }
        { selects := [some 4, none], readable := false, readOnce := (5, none), reads := [] } =
      some (0, some .readTimeout) :=
  (c2_timeout_read_behavior _ _ rfl (by decide) (by decide)).1 rfl

/-- C3 counterexample: the claim says the Timeval handed to select
represents exactly `ReadTimeout` nanoseconds; at the positive timeout 1 the
built Timeval represents 1000000 nanoseconds. -/
theorem c3_timeval_counterexample :
    (0 : Int) < 1 ∧ timevalNsec (readTimeval 1) = 1000000 ∧ (1000000 : Int) ≠ 1 := by
  refine ⟨by decide, by decide, by decide⟩

/-- C3 (amended): `Read` multiplies the configured `ReadTimeout` duration by
`time.Millisecond`, so the Timeval handed to select represents
`ReadTimeout * 10^6` nanoseconds (exactly, the product being a multiple of
the microsecond round-up), whenever that product stays inside int64. -/
theorem c3_timeval_scaled (rt : Int) (h1 : 0 < rt)
    (h2 : rt * 1000000 + 999 < 9223372036854775808) :
    timevalNsec (readTimeval rt) = rt * 1000000 := by
  have hw1 : int64Wrap (rt * 1000000) = rt * 1000000 := by
    unfold int64Wrap
    omega
  have hw2 : int64Wrap (rt * 1000000 + 999) = rt * 1000000 + 999 := by
    unfold int64Wrap
    omega
  simp only [readTimeval, nsecToTimeval, timevalNsec]
  rw [hw1, hw2]
  rw [Int.tmod_eq_emod (by omega) (by omega), Int.tdiv_eq_ediv (by omega) (by omega),
    Int.tdiv_eq_ediv (by omega) (by omega)]
  rw [if_neg (by omega)]
  omega

theorem c3_timeval_scaled_witness :
    timevalNsec (readTimeval 200000000) = 200000000 * 1000000 :=
  c3_timeval_scaled 200000000 (by decide) (by decide)

/-- C4: for every configuration with valid stop bits and flow control, the
translator clears all parity-related control bits and sets them per mode:
"N" no parity bits, "E" enable, "O" enable+odd, "S" enable+space-marking,
"M" enable+odd+space-marking; "G" yields enable+space-marking on the
control flags and additionally enables input parity checking (`INPCK`) and
parity-error marking (`PARMRK`) and clears the ignore-parity-errors input
flag (`IGNPAR`); any other parity symbol yields a configuration error and
no settings. -/
theorem c4_parity_translation (cfg : Config)
    (hstop : cfg.stopBits = 0 ∨ cfg.stopBits = 1 ∨ cfg.stopBits = 2)
    (hflow : cfg.flow = FlowNone ∨ cfg.flow = FlowSoft ∨ cfg.flow = FlowHardware) :
    (cfg.parity = "N" → ∃ t, getTermiosFor cfg = .ok t ∧ parityBits t = 0) ∧
    (cfg.parity = "E" → ∃ t, getTermiosFor cfg = .ok t ∧ parityBits t = PARENB) ∧
    (cfg.parity = "O" → ∃ t, getTermiosFor cfg = .ok t ∧ parityBits t = PARENB ||| PARODD) ∧
    (cfg.parity = "S" → ∃ t, getTermiosFor cfg = .ok t ∧ parityBits t = PARENB ||| CMSPAR) ∧
    (cfg.parity = "M" → ∃ t, getTermiosFor cfg = .ok t ∧
      parityBits t = PARENB ||| PARODD ||| CMSPAR) ∧
    (cfg.parity = "G" → ∃ t, getTermiosFor cfg = .ok t ∧
      parityBits t = PARENB ||| CMSPAR ∧ t.iflag &&& INPCK ≠ 0 ∧ t.iflag &&& PARMRK ≠ 0 ∧
      t.iflag &&& IGNPAR = 0) ∧
    (cfg.parity ≠ "N" → cfg.parity ≠ "E" → cfg.parity ≠ "O" → cfg.parity ≠ "S" →
      cfg.parity ≠ "M" → cfg.parity ≠ "G" →
      getTermiosFor cfg = .error (.errStr "invalid or not supported parity")) := by
  obtain hs | hs | hs := hstop <;> obtain hf | hf | hf := hflow <;>
    refine ⟨fun hp => ?_, fun hp => ?_, fun hp => ?_, fun hp => ?_, fun hp => ?_,
      fun hp => ?_, fun h1 h2 h3 h4 h5 h6 => ?_⟩ <;>
    simp_all [getTermiosFor, parityFlags, stopBitsFlags, flowFlags, parityBits, clearBits,
      or_and_right, Nat.and_assoc, mask32,
      PARENB, PARODD, CMSPAR, CSTOPB, CRTSCTS, CREAD, CLOCAL, CS8,
      IGNPAR, INPCK, PARMRK, IXON, IXOFF, B19200,
      FlowNone, FlowSoft, FlowHardware, Nat.and_zero, Nat.zero_or, Nat.or_zero,
      gAnd1, gAnd2, gAnd3, gAnd4, gAnd5, gAnd6, gAnd7, gAnd8, gAnd9, gAnd10,
      gAnd11, gAnd12, gAnd13, gAnd14, gAnd15, gAnd16, gAnd17, gAnd18, gAnd19,
      gAnd20, gAnd21, gAnd22, gAnd36, gAnd37]

theorem c4_parity_translation_witness :
    parityBits ((getTermiosFor
      { name := "", baud := 9600, readTimeout := 0, parity := "E",
        stopBits := 1, flow := 0 }).toOption.getD {}) = PARENB := by
  obtain ⟨t, ht, hp⟩ := (c4_parity_translation
    { name := "", baud := 9600, readTimeout := 0, parity := "E",
      stopBits := 1, flow := 0 }
    (Or.inr (Or.inl rfl)) (Or.inl rfl)).2.1 rfl
  rw [ht]
  simpa using hp

/-- C5: for every configuration with valid parity, stop bits and flow
control, the translator resolves the baud rate as follows: a zero request
becomes the default `B19200`; a request found in the fixed table maps to
the table's encoding (in `Ispeed`, `Ospeed` and the `CBAUD` bits of
`Cflag`); a nonzero request absent from the table leaves the baud fields at
zero and raises no error. -/
theorem c5_baud_resolution (cfg : Config)
    (hpar : cfg.parity = "N" ∨ cfg.parity = "E" ∨ cfg.parity = "O" ∨ cfg.parity = "S" ∨
      cfg.parity = "M" ∨ cfg.parity = "G")
    (hstop : cfg.stopBits = 0 ∨ cfg.stopBits = 1 ∨ cfg.stopBits = 2)
    (hflow : cfg.flow = FlowNone ∨ cfg.flow = FlowSoft ∨ cfg.flow = FlowHardware) :
    (cfg.baud = 0 → ∃ t, getTermiosFor cfg = .ok t ∧
      t.ispeed = B19200 ∧ t.ospeed = B19200 ∧ t.cflag &&& CBAUD = B19200) ∧
    (∀ v, cfg.baud ≠ 0 → baudRates cfg.baud = some v → ∃ t, getTermiosFor cfg = .ok t ∧
      t.ispeed = v ∧ t.ospeed = v ∧ t.cflag &&& CBAUD = v) ∧
    (cfg.baud ≠ 0 → baudRates cfg.baud = none → ∃ t, getTermiosFor cfg = .ok t ∧
      t.ispeed = 0 ∧ t.ospeed = 0 ∧ t.cflag &&& CBAUD = 0) := by
  refine ⟨fun hb => ?_, fun v hz hv => ?_, fun hz hn => ?_⟩
  · have hr : resolveBaud cfg.baud = 14 := by
      unfold resolveBaud
      rw [if_pos hb]
      rfl
    obtain hp|hp|hp|hp|hp|hp := hpar <;> obtain hs|hs|hs := hstop <;>
      obtain hf|hf|hf := hflow <;>
      simp_all [getTermiosFor, parityFlags, stopBitsFlags, flowFlags, clearBits,
        or_and_right, Nat.and_assoc, mask32, CBAUD,
        PARENB, PARODD, CMSPAR, CSTOPB, CRTSCTS, CREAD, CLOCAL, CS8,
        IGNPAR, INPCK, PARMRK, IXON, IXOFF, B19200,
        FlowNone, FlowSoft, FlowHardware, Nat.and_zero, Nat.zero_and, Nat.zero_or, Nat.or_zero,
        gAnd23, gAnd24, gAnd25, gAnd26, gAnd27, gAnd28, gAnd29, gAnd30, gAnd31,
        gAnd32, gAnd33, gAnd34, gAnd35, gAnd38]
  · have hr : resolveBaud cfg.baud = v := resolveBaud_eq_of_some cfg.baud v hz hv
    have hv4 : v &&& 4111 = v := by
      rw [← hr]
      exact resolveBaud_and_CBAUD cfg.baud
    obtain hp|hp|hp|hp|hp|hp := hpar <;> obtain hs|hs|hs := hstop <;>
      obtain hf|hf|hf := hflow <;>
      simp_all [getTermiosFor, parityFlags, stopBitsFlags, flowFlags, clearBits,
        or_and_right, Nat.and_assoc, mask32, CBAUD,
        PARENB, PARODD, CMSPAR, CSTOPB, CRTSCTS, CREAD, CLOCAL, CS8,
        IGNPAR, INPCK, PARMRK, IXON, IXOFF, B19200,
        FlowNone, FlowSoft, FlowHardware, Nat.and_zero, Nat.zero_and, Nat.zero_or, Nat.or_zero,
        gAnd23, gAnd24, gAnd25, gAnd26, gAnd27, gAnd28, gAnd29, gAnd30, gAnd31,
        gAnd32, gAnd33, gAnd34, gAnd35, gAnd38]
  · have hr : resolveBaud cfg.baud = 0 := by
      unfold resolveBaud
      rw [if_neg hz, hn]
    obtain hp|hp|hp|hp|hp|hp := hpar <;> obtain hs|hs|hs := hstop <;>
      obtain hf|hf|hf := hflow <;>
      simp_all [getTermiosFor, parityFlags, stopBitsFlags, flowFlags, clearBits,
        or_and_right, Nat.and_assoc, mask32, CBAUD,
        PARENB, PARODD, CMSPAR, CSTOPB, CRTSCTS, CREAD, CLOCAL, CS8,
        IGNPAR, INPCK, PARMRK, IXON, IXOFF, B19200,
        FlowNone, FlowSoft, FlowHardware, Nat.and_zero, Nat.zero_and, Nat.zero_or, Nat.or_zero,
        gAnd23, gAnd24, gAnd25, gAnd26, gAnd27, gAnd28, gAnd29, gAnd30, gAnd31,
        gAnd32, gAnd33, gAnd34, gAnd35, gAnd38]

theorem c5_baud_resolution_witness :
    ((getTermiosFor
      { name := "", baud := 9600, readTimeout := 0, parity := "N",
        stopBits := 1, flow := 0 }).toOption.getD {}).ispeed = 13 := by
  obtain ⟨t, ht, h1, h2, h3⟩ := (c5_baud_resolution
    { name := "", baud := 9600, readTimeout := 0, parity := "N",
      stopBits := 1, flow := 0 }
    (Or.inl rfl) (Or.inr (Or.inl rfl)) (Or.inl rfl)).2.1 13 (by decide) (by decide)
  rw [ht]
  simpa using h1

/-- C6: `Close` on an unopened handle returns `ErrPortNotInitialized` and
changes nothing; `Close` on an opened handle always ends with
`opened = false` and `fd = 0`, and when releasing OS-level exclusive access
fails the wrapped failure is returned (with the state still reset). -/
theorem c6_close_behavior (s : PortState) (nxcl ce : Nat) :
    (s.opened = false → closeImpl s nxcl ce = (s, some .portNotInitialized, [])) ∧
    (s.opened = true →
      (closeImpl s nxcl ce).1.opened = false ∧ (closeImpl s nxcl ce).1.fd = 0 ∧
      (nxcl ≠ 0 → (closeImpl s nxcl ce).2.1 =
        some (.wrapped "failed to release exclusive access" (.errno nxcl)))) := by
  by_cases hn : nxcl = 0 <;>
    constructor <;> intro h <;> simp [closeImpl, h, hn]

theorem c6_close_behavior_witness :
    (closeImpl { fd := 3, opened := true, conf := zeroConfig } 5 0).2.1 =
      some (.wrapped "failed to release exclusive access" (.errno 5)) :=
  ((c6_close_behavior { fd := 3, opened := true, conf := zeroConfig } 5 0).2 rfl).2.2
    (by decide)

/-- C7 counterexample: the §4.1 rules accept the parity symbol "G" (the
translator returns settings for it), but `SetParity` on an open handle with
a successfully fetched termios rejects "G" with a configuration error,
performing no write-back and no config update — contradicting the claim for
"every parity/stop-bit argument accepted by the §4.1 rules". -/
theorem c7_guarded_mark_counterexample :
    (getTermiosFor
        { name := "", baud := 9600, readTimeout := 0, parity := "G",
          stopBits := 1, flow := 0 }).isOk = true ∧
    setParityImpl { fd := 3, opened := true, conf := zeroConfig } (.ok {}) 0 "G" 1 =
      ⟨{ fd := 3, opened := true, conf := zeroConfig }, none,
       some (.errStr "invalid or not supported parity")⟩ := by
  constructor <;> decide

/-- C7 (amended): for every open handle and every parity in `N,E,O,S,M`
(the set `SetParity` supports — "G", accepted by §4.1, is rejected here)
and stop bits in `0,1,2`, when the fetch and the write-back OS calls
succeed, `SetParity` writes back a termios that differs from the fetched
one only in the parity and stop-bit bits of `Cflag`, and the handle ends
with only `conf.parity`/`conf.stopBits` changed. -/
theorem c7_set_parity_frame (s : PortState) (t0 : Termios) (parity : String) (sb : Int)
    (hopen : s.opened = true)
    (hpar : parity = "N" ∨ parity = "E" ∨ parity = "O" ∨ parity = "S" ∨ parity = "M")
    (hsb : sb = 0 ∨ sb = 1 ∨ sb = 2) :
    ∃ t1, setParityImpl s (.ok t0) 0 parity sb =
      ⟨{ s with conf := { s.conf with parity := parity, stopBits := sb } }, some t1, none⟩ ∧
      t1.iflag = t0.iflag ∧ t1.oflag = t0.oflag ∧ t1.lflag = t0.lflag ∧
      t1.line = t0.line ∧ t1.cc = t0.cc ∧ t1.ispeed = t0.ispeed ∧ t1.ospeed = t0.ospeed ∧
      clearBits t1.cflag (PARENB ||| PARODD ||| CMSPAR ||| CSTOPB) =
        clearBits t0.cflag (PARENB ||| PARODD ||| CMSPAR ||| CSTOPB) := by
  have k1 : (4294967231 : Nat) &&& 3221224639 = 3221224639 := by decide
  have k2 : (3221224703 : Nat) &&& 3221224639 = 3221224639 := by decide
  have k3 : (256 : Nat) &&& 3221224639 = 0 := by decide
  have k4 : (768 : Nat) &&& 3221224639 = 0 := by decide
  have k5 : (1073742080 : Nat) &&& 3221224639 = 0 := by decide
  have k6 : (1073742592 : Nat) &&& 3221224639 = 0 := by decide
  have k7 : (64 : Nat) &&& 3221224639 = 0 := by decide
  obtain hp|hp|hp|hp|hp := hpar <;> obtain hs|hs|hs := hsb <;>
    simp_all [setParityImpl, getTermiosImpl, clearBits, or_and_right, Nat.and_assoc,
      mask32, PARENB, PARODD, CMSPAR, CSTOPB,
      Nat.and_zero, Nat.zero_or, Nat.or_zero]

theorem c7_set_parity_frame_witness :
    (setParityImpl { fd := 3, opened := true, conf := zeroConfig }
      (.ok { cflag := 2237 }) 0 "E" 2).err = none := by
  obtain ⟨t1, heq, hframe⟩ := c7_set_parity_frame
    { fd := 3, opened := true, conf := zeroConfig } { cflag := 2237 } "E" 2
    rfl (Or.inr (Or.inl rfl)) (Or.inr (Or.inr rfl))
  rw [heq]

/-- C8 counterexample: the claim says the no-op stub platform's `SetParity`
returns `ErrNotImplemented` for every input; the darwin body is
`return nil`, so at ("N", 1) it returns no error. -/
theorem c8_stub_counterexample :
    Darwin.setParity "N" 1 = none ∧
    Darwin.setParity "N" 1 ≠ some GoError.notImplemented := by
  constructor <;> decide

/-- C8 (amended): on the no-op stub platform, `SetParity` returns `nil`
(no error) for every input. -/
theorem c8_stub_set_parity_nil (parity : String) (stopbits : Int) :
    Darwin.setParity parity stopbits = none := rfl

/-- C9: on an open handle with no configured (positive) timeout, `Read`
retries only on the interrupted-call condition and returns the first
non-interrupted outcome with a negative length normalised to zero; a
zero-length, no-error outcome is returned as `(0, nil)`, and the returned
error is never `ErrPortClosed` (the length is also never negative). -/
theorem c9_no_timeout_read (s : PortState) (o : ReadOracle)
    (hopen : s.opened = true) (hrt : s.conf.readTimeout ≤ 0) :
    readImpl s o = (firstReady o.reads).map
      (fun r => ((if r.1 < 0 then 0 else r.1), r.2.map GoError.errno)) ∧
    (firstReady o.reads = some (0, none) → readImpl s o = some (0, none)) ∧
    (∀ n ge, readImpl s o = some (n, ge) → 0 ≤ n ∧ ge ≠ some .portClosed) := by
  have hnt : ¬ s.conf.readTimeout > 0 := by omega
  have himpl : readImpl s o = readLoop o.reads := by
    simp [readImpl, hopen, hnt]
  rw [himpl, readLoop_eq_firstReady]
  refine ⟨rfl, fun h => ?_, fun n ge h => ?_⟩
  · rw [h]
    simp
  · rcases hf : firstReady o.reads with _ | r
    · rw [hf] at h
      simp at h
    · rw [hf] at h
      obtain ⟨hn, hg⟩ : (if r.1 < 0 then 0 else r.1) = n ∧ r.2.map GoError.errno = ge := by
        simpa using h
      constructor
      · rw [← hn]
        split <;> omega
      · rw [← hg]
        rcases r.2 with _ | k <;> simp

theorem c9_no_timeout_read_witness :
    readImpl { fd := 3, opened := true, conf := zeroConfig }
        { selects := [], readable := false, readOnce := (0, none),
          reads := [(-3, some 4), (0, none)] } = some (0, none) :=
  (c9_no_timeout_read { fd := 3, opened := true, conf := zeroConfig }
    { selects := [], readable := false, readOnce := (0, none),
      reads := [(-3, some 4), (0, none)] } rfl (by decide)).2.1 (by decide)

/-- C10: `Flush` never checks the `opened` flag — on a never-opened or
closed handle (`opened = false`, `fd = 0`) it still issues the `TCFLSH`
ioctl on descriptor value 0 and returns that call's outcome (identically on
the darwin stub), while `Read` and `Write` on the same handle return
`ErrNotOpen`. -/
theorem c10_flush_no_open_check (s : PortState) (errno : Nat) (w : Int × Option Nat)
    (o : ReadOracle) (hopen : s.opened = false) (hfd : s.fd = 0) :
    flushImpl s errno = (0, if errno = 0 then none else some (.errno errno)) ∧
    (flushImpl s errno).2 ≠ some .notOpen ∧
    flushImpl s errno = flushImpl { s with opened := true } errno ∧
    Darwin.flush s errno = flushImpl s errno ∧
    readImpl s o = some (0, some .notOpen) ∧
    writeImpl s w = (0, some .notOpen) := by
  by_cases he : errno = 0 <;>
    simp [flushImpl, Darwin.flush, readImpl, writeImpl, hopen, hfd, he]

theorem c10_flush_no_open_check_witness :
    flushImpl { fd := 0, opened := false, conf := zeroConfig } 0 = (0, none) := by
  have h := (c10_flush_no_open_check { fd := 0, opened := false, conf := zeroConfig }
    0 (0, none) { selects := [], readable := false, readOnce := (0, none), reads := [] }
    rfl rfl).1
  simpa using h

end XSerial
